import Mathlib

/-!
Shallow embedding of `ThermostatFinal.py` (a thermostat built on the
observer pattern and a three-state mode machine), together with proofs
about its state-propagation core.

Conventions of the embedding:
* Python floats are modelled as rationals (ℚ); the only float operations
  the verified code performs are storing, comparing, unit conversion and
  `floor`, all exact on the values involved.
* Python exceptions are modelled with `Except Unit`; a `try/except` block
  becomes a `match` whose `error` branch performs the handler's effect.
* Observer identity (Python `in` / `remove` on the observer list, which
  use object identity for these classes) is modelled by natural-number
  observer ids with decidable equality.
-/

namespace ThermostatModel

/-- Operating mode of the thermostat: the three `State` members
`off` (initial), `heat`, `cool` of `ThermostatStateMachine`. -/
inductive Mode
  | off
  | heat
  | cool
  deriving DecidableEq, Repr

/-- The single transition event `cycle = off.to(heat) | heat.to(cool) | cool.to(off)`
of `ThermostatStateMachine`. -/
def cycleMode : Mode → Mode
  | .off => .heat
  | .heat => .cool
  | .cool => .off

/-- The lowercase state id (`current_state.id`) of a mode, as produced by
the `statemachine` library from the attribute names `off`, `heat`, `cool`. -/
def modeId : Mode → String
  | .off => "off"
  | .heat => "heat"
  | .cool => "cool"

/-- `Subject.attach` / `ThermostatStateMachine.attach_observer`: append the
observer only if it is not already present. -/
def attach (o : Nat) (l : List Nat) : List Nat :=
  if o ∈ l then l else l ++ [o]

/-- `Subject.detach`: remove the observer if present (Python `list.remove`
removes the first occurrence; the `if observer in ...` guard makes the
absent case a no-op, which `List.erase` also is). -/
def detach (o : Nat) (l : List Nat) : List Nat :=
  l.erase o

/-- A mutation of a subject's observer list that an observer may perform
re-entrantly from inside its own `update`. -/
inductive ObsAction
  | att (o : Nat)
  | det (o : Nat)
  deriving DecidableEq, Repr

/-- Apply one re-entrant list mutation. -/
def applyAction (l : List Nat) : ObsAction → List Nat
  | .att o => attach o l
  | .det o => detach o l

/-- Apply the mutations an observer performs during its `update`, in order. -/
def applyActions (acts : List ObsAction) (l : List Nat) : List Nat :=
  acts.foldl applyAction l

/-- `Subject.notify`: take a snapshot copy of the observer list
(`observers_copy = self._observers.copy()` under the lock), then invoke
`update` on each element of the snapshot; each update may mutate the live
list via `beh`.  Returns (final live list, sequence of observers invoked). -/
def snapshotNotify (beh : Nat → List ObsAction) (l : List Nat) :
    List Nat × List Nat :=
  let snap := l
  (snap.foldl (fun cur o => applyActions (beh o) cur) l, snap)

/-- `ThermostatStateMachine._notify_observers`: a Python
`for observer in self._observers` loop over the live list, i.e. iteration
by increasing index where elements appended during the loop are still
visited.  `fuel` bounds the number of loop iterations; whenever the index
reaches the current length within the fuel, the result is exactly the
Python loop's result. -/
def liveNotifyAux (beh : Nat → List ObsAction) :
    Nat → Nat → List Nat → List Nat → List Nat × List Nat
  | 0, _, l, invoked => (l, invoked)
  | fuel + 1, i, l, invoked =>
    if h : i < l.length then
      let o := l.get ⟨i, h⟩
      liveNotifyAux beh fuel (i + 1) (applyActions (beh o) l) (invoked ++ [o])
    else
      (l, invoked)

/-- A behaviour where observer 0 attaches observer 1 to the same subject
during its own `update`, and every other observer does nothing. -/
def behAttachOne : Nat → List ObsAction :=
  fun n => if n = 0 then [ObsAction.att 1] else []

/-- One update call of `Subject.notify`'s loop body: the observer either
returns normally or raises (second component `true` means its `update`
raises). -/
def updateCall (o : Nat × Bool) : Except Unit Unit :=
  if o.2 then Except.error () else Except.ok ()

/-- The dispatch loop of `Subject.notify` / `ThermostatStateMachine._notify_observers`
with its per-observer `try/except`: an observer that raises is logged
(`logger.error`) and iteration continues; the return type is a plain list
of invoked observers (not `Except`), modelling that no exception reaches
the caller of `notify`. -/
def notifyWithCatch : List (Nat × Bool) → List Nat
  | [] => []
  | o :: rest =>
    (match updateCall o with
     | Except.ok _ => [o.1]
     | Except.error _ => [o.1]) ++ notifyWithCatch rest

/-- The in-memory state of `ThermostatStateMachine`: current mode, the
integer setpoint, and the observer list it manages itself. -/
structure SMState where
  mode : Mode
  setpoint : Int
  observers : List Nat
  deriving DecidableEq, Repr

/-- The mutating operations exposed by `ThermostatStateMachine`:
`cycle` (via `cycle_state`), `increment_setpoint`, `decrement_setpoint`,
the `setpoint` property setter, and `attach_observer`. -/
inductive Op
  | cycle
  | incSetpoint
  | decSetpoint
  | setSetpoint (v : Int)
  | attachObserver (o : Nat)
  deriving DecidableEq, Repr

/-- Effect of one operation on the state machine's in-memory state.
`incSetpoint`/`decSetpoint` go through the `setpoint` setter with
`self._setpoint ± 1`; the setter stores the value unconditionally
(no clamp appears anywhere in the source). -/
def applyOp (s : SMState) : Op → SMState
  | .cycle => { s with mode := cycleMode s.mode }
  | .incSetpoint => { s with setpoint := s.setpoint + 1 }
  | .decSetpoint => { s with setpoint := s.setpoint - 1 }
  | .setSetpoint v => { s with setpoint := v }
  | .attachObserver o => { s with observers := attach o s.observers }

/-- Run a sequence of operations. -/
def applyOps (ops : List Op) (s : SMState) : SMState :=
  ops.foldl applyOp s

/-- State of a freshly constructed machine: initial state `off`,
`DEFAULT_SETPOINT = 72`, no observers. -/
def initSM : SMState :=
  { mode := .off, setpoint := 72, observers := [] }

/-- Whether the class defines an `on_exit_<id>` callback for a state:
`on_exit_heat` and `on_exit_cool` exist, but no `on_exit_off` is defined,
so the `statemachine` library runs no exit callback when leaving `off`. -/
def exitHandlerDefined : Mode → Bool
  | .heat => true
  | .cool => true
  | .off => false

/-- Whether the class defines an `on_enter_<id>` callback for a state:
`on_enter_heat`, `on_enter_cool` and `on_enter_off` all exist. -/
def enterHandlerDefined : Mode → Bool
  | _ => true

/-- The transition callbacks the `statemachine` library runs for one
`cycle()` from mode `m`: the exit callback of `m` (when defined) followed
by the enter callback of the target state (when defined). -/
def cycleHooks (m : Mode) : List String :=
  (if exitHandlerDefined m then [String.append "on_exit_" (modeId m)] else []) ++
    (if enterHandlerDefined (cycleMode m) then
      [String.append "on_enter_" (modeId (cycleMode m))] else [])

/-- Number of `_notify_observers()` broadcasts one `cycle()` from mode `m`
emits: each defined hook's body calls `_notify_observers()` exactly once. -/
def notificationsOnCycle (m : Mode) : Nat :=
  (cycleHooks m).length

/-- Drive mode of one PWM LED channel: `off()`, `value = 1` (solid) or
`pulse()`. -/
inductive LedMode
  | off
  | solid
  | pulsing
  deriving DecidableEq, Repr

/-- The pair of LED channels owned by `LEDController`. -/
structure LedPair where
  red : LedMode
  blue : LedMode
  deriving DecidableEq, Repr

/-- One hardware call issued by `LEDController._update_leds`. -/
inductive LedCmd
  | redOff
  | blueOff
  | redPulse
  | redSolid
  | bluePulse
  | blueSolid
  deriving DecidableEq, Repr

/-- Effect of one LED command on the channel pair. -/
def applyLedCmd (s : LedPair) : LedCmd → LedPair
  | .redOff => { s with red := .off }
  | .blueOff => { s with blue := .off }
  | .redPulse => { s with red := .pulsing }
  | .redSolid => { s with red := .solid }
  | .bluePulse => { s with blue := .pulsing }
  | .blueSolid => { s with blue := .solid }

/-- The command sequence `LEDController._update_leds` issues for a given
state id, setpoint and Fahrenheit temperature: it computes
`current_temp = floor(thermostat.current_temperature)`, turns both LEDs
off first, then applies the heat/cool policy (nothing more in `off`). -/
def updateLedCmds (state : Mode) (setpoint : Int) (tempF : ℚ) : List LedCmd :=
  let current_temp : Int := ⌊tempF⌋
  [LedCmd.redOff, LedCmd.blueOff] ++
    match state with
    | .heat => if current_temp < setpoint then [LedCmd.redPulse] else [LedCmd.redSolid]
    | .cool => if current_temp > setpoint then [LedCmd.bluePulse] else [LedCmd.blueSolid]
    | .off => []

/-- Run a command sequence against the channels' previous drive state. -/
def runLedCmds (init : LedPair) (cmds : List LedCmd) : LedPair :=
  cmds.foldl applyLedCmd init

/-- Modelled from the spec's words (for comparison with the command
sequence derived from the source): Off → both channels off; Heat → red
pulsing when `⌊temp⌋ < setpoint` else red solid, blue off; Cool → blue
pulsing when `⌊temp⌋ > setpoint` else blue solid, red off. -/
def ledPolicySpec (m : Mode) (setpoint : Int) (tempF : ℚ) : LedPair :=
  match m with
  | .off => ⟨.off, .off⟩
  | .heat => if ⌊tempF⌋ < setpoint then ⟨.pulsing, .off⟩ else ⟨.solid, .off⟩
  | .cool => if ⌊tempF⌋ > setpoint then ⟨.off, .pulsing⟩ else ⟨.off, .solid⟩

/-- The external AHTx0 driver as `read_sensor` uses it: two separate
property accesses (`.temperature` then `.humidity`), each of which can
independently raise an I2C exception. -/
structure SensorDriver where
  temperature : Except Unit ℚ
  humidity : Except Unit ℚ

/-- In-memory state of `ClimateSensor`: the optional driver handle
(`None` when `AHTx0(i2c_bus)` raised in the constructor) and the cached
fields `_temperature_c`, `_humidity`, `_last_read_successful`. -/
structure ClimateSensor where
  sensor : Option SensorDriver
  temperature_c : ℚ
  humidity : ℚ
  last_read_successful : Bool

/-- `ClimateSensor.__init__`: cached fields start at `0.0`, `0.0`,
`False`, whether or not the driver constructed. -/
def initClimateSensor (s : Option SensorDriver) : ClimateSensor :=
  { sensor := s, temperature_c := 0, humidity := 0, last_read_successful := false }

/-- Result of one `read_sensor()` call: the new cache state, the returned
bool, and how many `notify()` broadcasts were emitted. -/
structure ReadResult where
  state : ClimateSensor
  success : Bool
  notifications : Nat

/-- `ClimateSensor.read_sensor`, statement by statement: early `False`
return when the driver is absent; otherwise assign
`_temperature_c = sensor.temperature`, then `_humidity = sensor.humidity`,
then `_last_read_successful = True`, in that order — an exception raised
by either property access jumps to the handler, which sets
`_last_read_successful = False` and returns `False` (so a humidity
failure leaves the already-assigned fresh temperature in place).  Only
the fully successful path calls `notify()` and returns `True`. -/
def read_sensor (c : ClimateSensor) : ReadResult :=
  match c.sensor with
  | none => { state := c, success := false, notifications := 0 }
  | some drv =>
    match drv.temperature with
    | Except.error _ =>
      { state := { c with last_read_successful := false }
        success := false, notifications := 0 }
    | Except.ok t =>
      match drv.humidity with
      | Except.error _ =>
        { state := { c with temperature_c := t, last_read_successful := false }
          success := false, notifications := 0 }
      | Except.ok h =>
        { state := { c with temperature_c := t, humidity := h,
                            last_read_successful := true }
          success := true, notifications := 1 }

/-- Accessor `ClimateSensor.temperature_fahrenheit`:
`C * 9.0 / 5.0 + 32.0`, computed at read time. -/
def temperature_fahrenheit (c : ClimateSensor) : ℚ :=
  c.temperature_c * 9 / 5 + 32

/-- Accessor `ClimateSensor.temperature_celsius`. -/
def temperature_celsius (c : ClimateSensor) : ℚ :=
  c.temperature_c

/-- Accessor `ClimateSensor.is_healthy`. -/
def is_healthy (c : ClimateSensor) : Bool :=
  c.last_read_successful

/-- Cache state after a genuine successful reading of 0.0 °C and 0.0 %
humidity, starting from a fresh cache. -/
def afterZeroRead : ClimateSensor :=
  (read_sensor (initClimateSensor (some ⟨Except.ok 0, Except.ok 0⟩))).state

/-- CPython's `f"{x:.1f}"` at one fractional digit, on the exact value:
round to the nearest tenth and print sign, integer part, `"."`, one
digit.  (Ties, which none of the verified properties exercise, round half
away from zero here, while CPython rounds the binary float's expansion
half to even.) -/
def formatFixed1 (q : ℚ) : String :=
  let n : Int := round (q * 10)
  (if n < 0 then "-" else "") ++
    toString (n.natAbs / 10) ++ "." ++ toString (n.natAbs % 10)

/-- The telemetry record built by `LCDDisplay._send_serial_update`:
`f"{state},{temp:.1f},{setpoint}\n"` with `state = current_state.id`. -/
def serialMessage (m : Mode) (tempF : ℚ) (setpoint : Int) : String :=
  modeId m ++ "," ++ formatFixed1 tempF ++ "," ++ toString setpoint ++ "\n"

lemma mode_applyOps_replicate_cycle (N : Nat) (s : SMState) :
    (applyOps (List.replicate N Op.cycle) s).mode = cycleMode^[N] s.mode := by
  induction N generalizing s with
  | zero => rfl
  | succ n ih =>
    rw [List.replicate_succ, Function.iterate_succ_apply]
    exact ih { s with mode := cycleMode s.mode }

lemma iterate_cycleMode_off (N : Nat) :
    cycleMode^[N] Mode.off = [Mode.off, Mode.heat, Mode.cool].getD (N % 3) Mode.off := by
  induction N with
  | zero => rfl
  | succ n ih =>
    rw [Function.iterate_succ_apply', ih]
    have h : n % 3 = 0 ∨ n % 3 = 1 ∨ n % 3 = 2 := by omega
    rcases h with h | h | h
    · have h2 : (n + 1) % 3 = 1 := by omega
      rw [h, h2]; rfl
    · have h2 : (n + 1) % 3 = 2 := by omega
      rw [h, h2]; rfl
    · have h2 : (n + 1) % 3 = 0 := by omega
      rw [h, h2]; rfl

/-- C4: starting from the initial mode `off`, after any sequence of `N`
`cycle()` calls the mode is element `N % 3` of `[off, heat, cool]`; no
operation of the state machine other than `cycle` changes the mode; and
the only transitions `cycle` performs are off→heat, heat→cool, cool→off. -/
theorem cycle_round_robin :
    (∀ N : Nat, (applyOps (List.replicate N Op.cycle) initSM).mode
        = [Mode.off, Mode.heat, Mode.cool].getD (N % 3) Mode.off) ∧
    (∀ (s : SMState) (o : Op), o ≠ Op.cycle → (applyOp s o).mode = s.mode) ∧
    (∀ m : Mode,
      (m = Mode.off ∧ cycleMode m = Mode.heat) ∨
      (m = Mode.heat ∧ cycleMode m = Mode.cool) ∨
      (m = Mode.cool ∧ cycleMode m = Mode.off)) := by
  refine ⟨fun N => ?_, fun s o h => ?_, fun m => ?_⟩
  · rw [mode_applyOps_replicate_cycle]; exact iterate_cycleMode_off N
  · cases o with
    | cycle => exact absurd rfl h
    | incSetpoint => rfl
    | decSetpoint => rfl
    | setSetpoint v => rfl
    | attachObserver o => rfl
  · cases m with
    | off => exact Or.inl ⟨rfl, rfl⟩
    | heat => exact Or.inr (Or.inl ⟨rfl, rfl⟩)
    | cool => exact Or.inr (Or.inr ⟨rfl, rfl⟩)

/-- C4 witness: a non-cycle operation (incrementing the setpoint) leaves
the initial mode unchanged. -/
theorem cycle_round_robin_witness :
    (applyOp initSM Op.incSetpoint).mode = initSM.mode :=
  cycle_round_robin.2.1 initSM Op.incSetpoint (by decide)

/-- C9: `increment_setpoint()` followed by `decrement_setpoint()` restores
the whole machine state, for every integer starting setpoint; the two
mutators move the setpoint by exactly ±1, and the setter stores any
integer unchanged, so no clamp or bound is applied at any value. -/
theorem setpoint_inverse_pair :
    ∀ s : SMState,
      applyOp (applyOp s Op.incSetpoint) Op.decSetpoint = s ∧
      (applyOp s Op.incSetpoint).setpoint = s.setpoint + 1 ∧
      (applyOp s Op.decSetpoint).setpoint = s.setpoint - 1 ∧
      (∀ v : Int, (applyOp s (Op.setSetpoint v)).setpoint = v) := by
  intro s
  refine ⟨?_, rfl, rfl, fun v => rfl⟩
  cases s with
  | mk m sp obs => simp [applyOp]

/-- C1 counterexample: a `cycle()` out of the initial mode `off` runs no
exit hook (the class defines no `on_exit_off`) and therefore emits one
observer notification, not two. -/
theorem cycle_off_single_notification :
    exitHandlerDefined Mode.off = false ∧ notificationsOnCycle Mode.off ≠ 2 := by
  decide

/-- C1 (amended): a `cycle()` from `heat` runs `on_exit_heat` then
`on_enter_cool`, and from `cool` runs `on_exit_cool` then `on_enter_off`,
each hook emitting one notification (two per transition); a `cycle()`
from `off` runs only `on_enter_heat` (one notification), because the
class defines enter hooks for all three states but exit hooks only for
`heat` and `cool`. -/
theorem cycle_transition_hooks :
    cycleHooks Mode.heat = ["on_exit_heat", "on_enter_cool"] ∧
    cycleHooks Mode.cool = ["on_exit_cool", "on_enter_off"] ∧
    cycleHooks Mode.off = ["on_enter_heat"] ∧
    notificationsOnCycle Mode.heat = 2 ∧
    notificationsOnCycle Mode.cool = 2 ∧
    notificationsOnCycle Mode.off = 1 ∧
    (∀ m : Mode, enterHandlerDefined (cycleMode m) = true) := by
  refine ⟨rfl, rfl, rfl, rfl, rfl, rfl, fun m => rfl⟩

/-- C3 counterexample: on the mode state machine's own dispatch
(`_notify_observers` iterates the live list), an observer that attaches a
new observer during its `update` causes the new observer to receive the
in-flight notification: with observer list `[0]` where observer 0
attaches observer 1, the invoked sequence is not `[0]`. -/
theorem live_dispatch_not_snapshot :
    (liveNotifyAux behAttachOne 10 0 [0] []).2 ≠ [0] := by
  decide

/-- C3 (amended): `Subject.notify` dispatches to a snapshot copy taken
before any observer is invoked, so re-entrant attach/detach during an
update never changes the recipients of the in-flight notification; the
mode state machine's `_notify_observers`, however, iterates the live
list, so at the concrete configuration `[0]` with observer 0 attaching
observer 1, the live dispatch invokes `[0, 1]`. -/
theorem snapshot_dispatch_recipients :
    (∀ (beh : Nat → List ObsAction) (l : List Nat),
        (snapshotNotify beh l).2 = l) ∧
    (liveNotifyAux behAttachOne 10 0 [0] []).2 = [0, 1] := by
  exact ⟨fun beh l => rfl, by decide⟩

lemma notifyWithCatch_eq_map (obs : List (Nat × Bool)) :
    notifyWithCatch obs = obs.map Prod.fst := by
  induction obs with
  | nil => rfl
  | cons o rest ih =>
    cases o with
    | mk oid raises =>
      cases raises <;> simp [notifyWithCatch, updateCall, ih]

/-- C6: if one observer's `update` raises during a notification, every
observer after it in registration order is still invoked with that same
notification, and the dispatch returns normally (the exception is caught
inside the loop, so nothing propagates to `notify`'s caller): the invoked
sequence is always exactly the registered sequence, raising or not. -/
theorem observer_fault_isolated :
    ∀ (pre post : List (Nat × Bool)) (oid : Nat),
      notifyWithCatch (pre ++ (oid, true) :: post)
        = pre.map Prod.fst ++ oid :: post.map Prod.fst ∧
      notifyWithCatch (pre ++ (oid, false) :: post)
        = notifyWithCatch (pre ++ (oid, true) :: post) := by
  intro pre post oid
  constructor
  · rw [notifyWithCatch_eq_map]; simp
  · rw [notifyWithCatch_eq_map, notifyWithCatch_eq_map]; simp

lemma attach_mem (o : Nat) (l : List Nat) (h : o ∈ l) : attach o l = l := by
  simp [attach, h]

lemma attach_not_mem (o : Nat) (l : List Nat) (h : o ∉ l) :
    attach o l = l ++ [o] := by
  simp [attach, h]

/-- C7: `attach` is idempotent — attaching the same observer twice yields
the same observer list as attaching it once — and after a double attach a
single `notify()` (whatever re-entrant behaviour the observers have)
invokes that observer exactly once, provided the starting list is
duplicate-free (as every list built by `attach`/`detach` from empty is). -/
theorem attach_idempotent :
    ∀ (o : Nat) (l : List Nat),
      attach o (attach o l) = attach o l ∧
      (l.Nodup → ∀ beh : Nat → List ObsAction,
        ((snapshotNotify beh (attach o (attach o l))).2).count o = 1) := by
  intro o l
  have hidem : attach o (attach o l) = attach o l := by
    by_cases h : o ∈ l
    · rw [attach_mem o l h, attach_mem o l h]
    · rw [attach_not_mem o l h]
      exact attach_mem o (l ++ [o]) (by simp)
  refine ⟨hidem, fun hnd beh => ?_⟩
  have hsnap : (snapshotNotify beh (attach o (attach o l))).2
      = attach o (attach o l) := rfl
  rw [hsnap, hidem]
  by_cases h : o ∈ l
  · rw [attach_mem o l h]
    exact List.count_eq_one_of_mem hnd h
  · rw [attach_not_mem o l h]
    rw [List.count_append, List.count_eq_zero_of_not_mem h]
    simp

/-- C7 witness: attaching observer 5 twice to the list `[1, 2]` and
notifying once (with inert observers) invokes observer 5 exactly once. -/
theorem attach_idempotent_witness :
    ((snapshotNotify (fun _ => []) (attach 5 (attach 5 [1, 2]))).2).count 5 = 1 :=
  (attach_idempotent 5 [1, 2]).2 (by decide) (fun _ => [])

/-- C5: for every mode, integer setpoint and temperature, the command
sequence of `_update_leds` starts by clearing both channels, and — run
from any previous LED state — ends in exactly the state the spec's
policy table prescribes (Off → both off; Heat → red pulsing when
`⌊temp⌋ < setpoint` else red solid, blue off; Cool → blue pulsing when
`⌊temp⌋ > setpoint` else blue solid, red off); in particular
(Heat, 72, 70) → red pulsing, (Heat, 72, 74) → red solid,
(Cool, 70, 75) → blue pulsing, (Cool, 70, 65) → blue solid. -/
theorem led_policy_matches_spec :
    (∀ (m : Mode) (sp : Int) (t : ℚ),
        (updateLedCmds m sp t).take 2 = [LedCmd.redOff, LedCmd.blueOff]) ∧
    (∀ (p : LedPair) (m : Mode) (sp : Int) (t : ℚ),
        runLedCmds p (updateLedCmds m sp t) = ledPolicySpec m sp t) ∧
    runLedCmds ⟨.solid, .solid⟩ (updateLedCmds Mode.heat 72 70)
      = ⟨.pulsing, .off⟩ ∧
    runLedCmds ⟨.solid, .solid⟩ (updateLedCmds Mode.heat 72 74)
      = ⟨.solid, .off⟩ ∧
    runLedCmds ⟨.solid, .solid⟩ (updateLedCmds Mode.cool 70 75)
      = ⟨.off, .pulsing⟩ ∧
    runLedCmds ⟨.solid, .solid⟩ (updateLedCmds Mode.cool 70 65)
      = ⟨.off, .solid⟩ := by
  refine ⟨fun m sp t => ?_, fun p m sp t => ?_, by decide, by decide, by decide, by decide⟩
  · cases m <;> simp only [updateLedCmds] <;>
      first
      | (split_ifs <;> rfl)
      | rfl
  · cases p with
    | mk r b =>
      cases m <;> simp only [updateLedCmds, ledPolicySpec] <;>
        first
        | (split_ifs <;> rfl)
        | rfl

/-- C2 counterexample: a failed `read_sensor()` does not always leave the
cached temperature unchanged — when the driver's temperature access
succeeds (25 °C) and its humidity access raises, the call fails yet the
cached temperature has moved from 20 to 25. -/
theorem failed_read_moves_temperature :
    (read_sensor { sensor := some ⟨Except.ok 25, Except.error ()⟩,
                   temperature_c := 20, humidity := 50,
                   last_read_successful := true }).success = false ∧
    (read_sensor { sensor := some ⟨Except.ok 25, Except.error ()⟩,
                   temperature_c := 20, humidity := 50,
                   last_read_successful := true }).state.temperature_c ≠ 20 := by
  exact ⟨rfl, by norm_num [read_sensor]⟩

/-- C2 (amended): a failed `read_sensor()` leaves the cached humidity
unchanged, leaves `is_healthy` false (under the reachability invariant
that a cache whose driver failed to construct has no successful last
read), emits no notification and returns failure; the cached temperature
is also unchanged except when the driver's temperature access succeeds
and its humidity access then raises, in which case the fresh temperature
is cached.  A successful `read_sensor()` caches the driver's temperature
and humidity, makes `is_healthy` true, emits exactly one notification and
returns success; and the invariant is preserved. -/
theorem read_failure_semantics :
    ∀ c : ClimateSensor,
      (c.sensor = none → c.last_read_successful = false) →
      ((read_sensor c).success = false →
          (read_sensor c).state.humidity = c.humidity ∧
          is_healthy (read_sensor c).state = false ∧
          (read_sensor c).notifications = 0) ∧
      ((read_sensor c).success = false →
          (∃ drv, c.sensor = some drv ∧
            (∃ t, drv.temperature = Except.ok t ∧
              drv.humidity = Except.error () ∧
              (read_sensor c).state.temperature_c = t)) ∨
          (read_sensor c).state.temperature_c = c.temperature_c) ∧
      ((read_sensor c).success = true →
          is_healthy (read_sensor c).state = true ∧
          (read_sensor c).notifications = 1 ∧
          ∃ drv, c.sensor = some drv ∧
            drv.temperature = Except.ok (read_sensor c).state.temperature_c ∧
            drv.humidity = Except.ok (read_sensor c).state.humidity) ∧
      ((read_sensor c).state.sensor = none →
          (read_sensor c).state.last_read_successful = false) := by
  intro c hinv
  match hc : c.sensor with
  | none =>
    refine ⟨fun _ => ⟨?_, ?_, ?_⟩, fun _ => ?_, fun hs => ?_, fun _ => ?_⟩ <;>
      simp_all [read_sensor, is_healthy, hinv hc]
  | some drv =>
    match ht : drv.temperature with
    | Except.error e =>
      refine ⟨fun _ => ⟨?_, ?_, ?_⟩, fun _ => ?_, fun hs => ?_, fun hn => ?_⟩ <;>
        simp_all [read_sensor, is_healthy]
    | Except.ok t =>
      match hh : drv.humidity with
      | Except.error e =>
        refine ⟨fun _ => ⟨?_, ?_, ?_⟩, fun _ => ?_, fun hs => ?_, fun hn => ?_⟩ <;>
          simp_all [read_sensor, is_healthy]
      | Except.ok h =>
        refine ⟨fun hs => ?_, fun hs => ?_, fun _ => ?_, fun hn => ?_⟩ <;>
          simp_all [read_sensor, is_healthy]

/-- C2 witness: on a cache whose driver failed to construct, a read fails
with humidity unchanged, health false and zero notifications. -/
theorem read_failure_semantics_witness :
    (read_sensor (initClimateSensor none)).state.humidity
        = (initClimateSensor none).humidity ∧
    is_healthy (read_sensor (initClimateSensor none)).state = false ∧
    (read_sensor (initClimateSensor none)).notifications = 0 :=
  (read_failure_semantics (initClimateSensor none) (fun _ => rfl)).1 rfl

/-- C10: before any successful read — whether or not the driver
constructed — the accessors return the constructor defaults 0 °C, 32 °F,
0 % humidity and `is_healthy = false`; and a cache that has genuinely
read 0 °C / 0 % agrees with a never-read cache on every accessor except
`is_healthy`. -/
theorem initial_cache_defaults :
    ∀ s : Option SensorDriver,
      temperature_celsius (initClimateSensor s) = 0 ∧
      temperature_fahrenheit (initClimateSensor s) = 32 ∧
      (initClimateSensor s).humidity = 0 ∧
      is_healthy (initClimateSensor s) = false ∧
      temperature_celsius afterZeroRead = temperature_celsius (initClimateSensor s) ∧
      temperature_fahrenheit afterZeroRead = temperature_fahrenheit (initClimateSensor s) ∧
      afterZeroRead.humidity = (initClimateSensor s).humidity ∧
      is_healthy afterZeroRead ≠ is_healthy (initClimateSensor s) := by
  intro s
  refine ⟨rfl, ?_, rfl, rfl, rfl, ?_, rfl,
    by simp [afterZeroRead, read_sensor, initClimateSensor, is_healthy]⟩ <;>
    norm_num [temperature_fahrenheit, initClimateSensor, afterZeroRead, read_sensor]

lemma toString_lt_ten (k : Nat) (hk : k < 10) :
    (toString k).length = 1 ∧ ((toString k).data.all Char.isDigit) = true := by
  interval_cases k <;> exact ⟨rfl, rfl⟩

/-- C8: the telemetry record is the lowercase mode id, the temperature at
exactly one fractional digit and the plain integer setpoint, joined by
commas and terminated by a newline; the mode id is always one of
`"off"`, `"heat"`, `"cool"`; the temperature field always ends in a dot
followed by exactly one decimal digit; and the concrete record for
(Heat, 71.6 °F, 72) is `"heat,71.6,72\n"`. -/
theorem telemetry_wire_format :
    (∀ m : Mode, modeId m = "off" ∨ modeId m = "heat" ∨ modeId m = "cool") ∧
    (∀ (m : Mode) (t : ℚ) (sp : Int),
        serialMessage m t sp
          = modeId m ++ "," ++ formatFixed1 t ++ "," ++ toString sp ++ "\n") ∧
    (∀ t : ℚ, ∃ s d : String,
        formatFixed1 t = s ++ "." ++ d ∧ d.length = 1 ∧
        (d.data.all Char.isDigit) = true) ∧
    serialMessage Mode.heat (71.6 : ℚ) 72 = "heat,71.6,72\n" := by
  refine ⟨fun m => ?_, fun m t sp => rfl, fun t => ?_, ?_⟩
  · cases m with
    | off => exact Or.inl rfl
    | heat => exact Or.inr (Or.inl rfl)
    | cool => exact Or.inr (Or.inr rfl)
  · refine ⟨(if round (t * 10) < 0 then "-" else "")
        ++ toString ((round (t * 10)).natAbs / 10),
      toString ((round (t * 10)).natAbs % 10), rfl, ?_⟩
    exact toString_lt_ten _ (Nat.mod_lt _ (by norm_num))
  · have h : round ((71.6 : ℚ) * 10) = 716 := by
      rw [round_eq, Int.floor_eq_iff]
      norm_num
    simp only [serialMessage, formatFixed1, h]
    rfl

end ThermostatModel
